import Mathlib

/-!
Verification of the paid-time computation engine and clock state machine of
the workhours tracker (src/main.py).

Modelling conventions:
* Clock times are integer minutes since midnight, i.e. the value
  `hhmm_to_min` produces from the "HH:MM" strings the code passes around;
  `Option Int` models Python `Optional[str]` arguments, with `none` standing
  for `None` or the empty string (both falsy in the source's `if not x` tests).
* Python's floor division `//` by a positive divisor coincides with Lean's
  euclidean `/` on `Int`, which is used throughout; likewise `%`.
* `abs(x) <= TOLERANCE_MIN` is modelled as `(x.natAbs : Int) ≤ TOLERANCE_MIN`.
* SQLite rows (roster days, bank-holiday rows, clock-state rows) and the
  standard-library date parser are external collaborators; they enter as
  explicit arguments, with `Except Unit` capturing the paths where the real
  collaborator can raise an exception.
-/

-- ====== company-rules constants (src/main.py lines 918-927) ======

def SHIFT_A_IN : Int := 9 * 60 + 45

def SHIFT_A_OUT : Int := 19 * 60

def SHIFT_B_IN : Int := 10 * 60 + 45

def SHIFT_B_OUT : Int := 20 * 60

def BREAK_FIXED_MIN : Int := 60

def TOLERANCE_MIN : Int := 5

def ROUND_STEP_MIN : Int := 15

-- Public-holiday premium; the code reads the environment variable
-- PUBLIC_HOLIDAY_MULT with default "1.0787" (line 1069).
def PUBLIC_HOLIDAY_MULT : Rat := 10787 / 10000

-- ====== time arithmetic utilities ======

-- hhmm_to_min (line 1072): "HH:MM" parsed into h and m, giving h*60+m.
def hhmm_to_min (h m : Int) : Int := h * 60 + m

-- round_floor / round_ceil (lines 929-935); no caller overrides the
-- default step of 15, so the step is fixed here.
def round_floor (mins : Int) : Int := (mins / ROUND_STEP_MIN) * ROUND_STEP_MIN

def round_ceil (mins : Int) : Int :=
  ((mins + ROUND_STEP_MIN - 1) / ROUND_STEP_MIN) * ROUND_STEP_MIN

-- f-string "{n:02d}": zero-pad to width 2; a negative value already has
-- width ≥ 2 including its sign, so it is rendered unpadded.
def fmt02 (n : Int) : String :=
  if 0 ≤ n ∧ n < 10 then "0" ++ toString n else toString n

-- min_to_hhmm (lines 1077-1079): `int(m or 0)` leaves any nonzero value,
-- negative included, untouched; then Python floor division and modulo.
def min_to_hhmm (m : Int) : String :=
  fmt02 (m / 60) ++ ":" ++ fmt02 (m % 60)

-- ====== paid window calculator (compute_paid_window, lines 937-1021) ======

-- Overnight handling for the real out punch (lines 967-968).
def overnight_out (rin rout0 : Int) : Int :=
  if rout0 < rin then rout0 + 24 * 60 else rout0

-- Overnight alignment of the official out (lines 989-991): applied only
-- when an official in time is present.
def official_out_norm (official_in : Option Int) (off_out : Int) : Int :=
  match official_in with
  | some oi => if off_out < oi then off_out + 24 * 60 else off_out
  | none => off_out

structure BoundaryRule where
  value : Int
  snapped : Bool
  capped : Bool
deriving Repr, DecidableEq

-- The IN rules block (lines 973-984): snap within tolerance, else cap an
-- unauthorized early arrival to the official start.
def in_rule (official_in : Option Int) (rin : Int) (authorized : Bool) : BoundaryRule :=
  match official_in with
  | none => ⟨rin, false, false⟩
  | some off_in =>
    if ((rin - off_in).natAbs : Int) ≤ TOLERANCE_MIN then ⟨off_in, true, false⟩
    else if authorized = false ∧ rin < off_in - TOLERANCE_MIN then ⟨off_in, false, true⟩
    else ⟨rin, false, false⟩

-- The OUT rules block (lines 986-1001): align official overnight, snap
-- within tolerance, else cap an unauthorized late departure.
def out_rule (official_in official_out : Option Int) (rout : Int)
    (authorized : Bool) : BoundaryRule :=
  match official_out with
  | none => ⟨rout, false, false⟩
  | some off_out0 =>
    if ((rout - official_out_norm official_in off_out0).natAbs : Int) ≤ TOLERANCE_MIN then
      ⟨official_out_norm official_in off_out0, true, false⟩
    else if authorized = false ∧
        rout > official_out_norm official_in off_out0 + TOLERANCE_MIN then
      ⟨official_out_norm official_in off_out0, false, true⟩
    else ⟨rout, false, false⟩

structure PaidWindow where
  paid_in : Option Int
  paid_out : Option Int
  snap_in : Bool
  snap_out : Bool
  cap_in : Bool
  cap_out : Bool
  round_in : Bool
  round_out : Bool
deriving Repr, DecidableEq

-- compute_paid_window (lines 937-1021): returns (None, None) when either
-- real punch is missing; otherwise snap/cap per boundary, 15-minute
-- rounding of non-snapped boundaries (IN up, OUT down), and the final
-- safety clamp paid_out := paid_in when paid_out < paid_in.
def compute_paid_window (official_in official_out real_in real_out : Option Int)
    (authorized : Bool) : PaidWindow :=
  match real_in, real_out with
  | some rin, some rout0 =>
    let rout := overnight_out rin rout0
    let i := in_rule official_in rin authorized
    let o := out_rule official_in official_out rout authorized
    let paid_in := if i.snapped then i.value else round_ceil i.value
    let paid_out1 := if o.snapped then o.value else round_floor o.value
    let paid_out := if paid_out1 < paid_in then paid_in else paid_out1
    ⟨some paid_in, some paid_out, i.snapped, o.snapped, i.capped, o.capped,
      decide (i.snapped = false ∧ round_ceil i.value ≠ i.value),
      decide (o.snapped = false ∧ round_floor o.value ≠ o.value)⟩
  | _, _ => ⟨none, none, false, false, false, false, false, false⟩

-- ====== shift resolver and break/pay aggregation ======

-- detect_shift (lines 1082-1088): cutoff is hhmm_to_min "10:15".
def detect_shift (time_in : Option Int) : Option (Int × Int) :=
  match time_in with
  | none => none
  | some t =>
    if t ≤ hhmm_to_min 10 15 then some (SHIFT_A_IN, SHIFT_A_OUT)
    else some (SHIFT_B_IN, SHIFT_B_OUT)

-- effective_break_minutes (lines 1099-1102).
def effective_break_minutes (t_in t_out : Option Int) (break_real : Int) : Int :=
  match t_in, t_out with
  | some _, some _ => max BREAK_FIXED_MIN break_real
  | _, _ => 0

-- The net-pay step of minutes_paid_between (lines 1055-1057):
-- worked = max(0, paid_out - paid_in); paid = max(0, worked - break_eff).
def payable_minutes (paid_in_min paid_out_min break_eff : Int) : Int :=
  max 0 (max 0 (paid_out_min - paid_in_min) - break_eff)

-- A roster_days row as read by roster_for_date: shift_in / shift_out may be
-- NULL or empty (both modelled none), day_off is an integer flag.
structure RosterDay where
  shift_in : Option Int
  shift_out : Option Int
  day_off : Int
deriving Repr, DecidableEq

-- minutes_paid_between (lines 1024-1065), with the roster_for_date lookup
-- passed in as `ro`. Returns the paid minutes together with the
-- compute_paid_window metadata (the source's meta dict also carries
-- reason/hhmm echo fields, which are not modelled).
def minutes_paid_between (ro : Option RosterDay) (time_in_real time_out_real : Option Int)
    (break_real : Int) (authorized : Bool) : Int × PaidWindow :=
  match time_in_real, time_out_real with
  | some _, some _ =>
    let official_in0 : Option Int :=
      match ro with
      | some r => if r.day_off = 0 then r.shift_in else none
      | none => none
    let official_out0 : Option Int :=
      match ro with
      | some r => if r.day_off = 0 then r.shift_out else none
      | none => none
    let officials :=
      if official_in0 = none ∨ official_out0 = none then
        match detect_shift time_in_real with
        | some (a, b) => (some a, some b)
        | none => (official_in0, official_out0)
      else (official_in0, official_out0)
    let w := compute_paid_window officials.1 officials.2 time_in_real time_out_real authorized
    match w.paid_in, w.paid_out with
    | some pin, some pout =>
      (payable_minutes pin pout (effective_break_minutes time_in_real time_out_real break_real), w)
    | _, _ => (0, w)
  | _, _ => (0, ⟨none, none, false, false, false, false, false, false⟩)

-- ====== multiplier (multiplier_for_date, lines 1213-1231) ======

-- `bh_row` models the sqlite fetchone of the paid column: the outer Option
-- is row presence, the inner Option the nullable paid value; `weekday`
-- models parse_ymd(work_date).weekday() (Monday = 0 .. Sunday = 6).
-- `Except.error` on either input models the exception the collaborator can
-- raise, caught by the function's blanket try/except. Note the date is
-- only parsed after the holiday check fails, as in the source.
def multiplier_for_date (bh_row : Except Unit (Option (Option Int)))
    (weekday : Except Unit Nat) : Rat :=
  match bh_row with
  | Except.error _ => 1
  | Except.ok row =>
    match row with
    | some paid =>
      if paid.getD 0 = 1 then PUBLIC_HOLIDAY_MULT
      else
        match weekday with
        | Except.error _ => 1
        | Except.ok d => if d = 6 then 3 / 2 else 1
    | none =>
      match weekday with
      | Except.error _ => 1
      | Except.ok d => if d = 6 then 3 / 2 else 1

-- ====== clock state machine ======

inductive ClockKind where
  | IN
  | OUT
deriving Repr, DecidableEq

-- decide_clock_time (lines 1459-1499).
def decide_clock_time (kind : ClockKind) (real_now : Int) (official : Option Int)
    (authorized : Bool) : Int × Bool :=
  match official with
  | none => (real_now, false)
  | some off =>
    let diff := real_now - off
    if (diff.natAbs : Int) ≤ TOLERANCE_MIN then (off, false)
    else if authorized = true then (real_now, false)
    else
      match kind with
      | ClockKind.IN => if diff < -TOLERANCE_MIN then (off, true) else (real_now, false)
      | ClockKind.OUT => if diff > TOLERANCE_MIN then (off, true) else (real_now, false)

-- An entries row, restricted to the fields the clock machine touches.
structure Entry where
  time_in : Option Int
  time_out : Option Int
  break_minutes : Int
  multiplier : Rat
  extra_checked : Int
  extra_authorized : Int
deriving Repr, DecidableEq

-- The singleton clock_state row (schema lines 114-127).
structure ClockState where
  week_id : Int
  work_date : Int
  in_time : Option Int
  out_time : Option Int
  break_running : Int
  break_start : Option Int
  break_minutes : Int
  updated_at : Int
deriving Repr, DecidableEq

inductive ClockInResult where
  | needs_extra_confirm (reason : String) (official : Option Int) (real : Int)
  | ignored (reason : String)
  | committed
deriving Repr, DecidableEq

-- The clock_in endpoint (lines 2419-2486) after week resolution and
-- get_or_create_today_entry: `ro` is today's roster row, `e` today's entry,
-- `st` the current clock_state row, `real_now` the wall clock in minutes,
-- `mult` the multiplier_for_date result and `ts` the update timestamp.
-- Returns the response together with the entry and clock-state rows as the
-- transaction leaves them (unchanged on a pending or ignored response).
def clock_in (ro : Option RosterDay) (e : Entry) (st : Option ClockState)
    (week_id work_date real_now : Int) (mult : Rat) (ts : Int) :
    ClockInResult × Entry × Option ClockState :=
  let day_off : Bool :=
    match ro with
    | some r => decide (r.day_off ≠ 0)
    | none => false
  if day_off = true ∧ e.extra_checked = 0 then
    (ClockInResult.needs_extra_confirm "DAY_OFF" none real_now, e, st)
  else if day_off = true ∧ e.extra_authorized ≠ 1 then
    (ClockInResult.ignored "DAY_OFF", e, st)
  else
    let official_in : Option Int :=
      match ro with
      | some r => r.shift_in
      | none => none
    let authorized : Bool := decide (e.extra_authorized = 1)
    let dc := decide_clock_time ClockKind.IN real_now official_in authorized
    if dc.2 = true ∧ e.extra_checked = 0 then
      (ClockInResult.needs_extra_confirm "EARLY_IN" official_in real_now, e, st)
    else
      (ClockInResult.committed,
       { e with time_in := some dc.1, time_out := none, multiplier := mult },
       some { week_id := week_id
              work_date := work_date
              in_time := some dc.1
              out_time := none
              break_running := 0
              break_start := none
              break_minutes := e.break_minutes
              updated_at := ts })

-- The clock_state resynchronization step of upsert_entry (lines 1971-1999):
-- runs only when the edited date is today and a clock_state row for that
-- user and date exists; the UPDATE sets week_id, in_time, out_time,
-- break_minutes and updated_at, and nothing else.
def upsert_sync_clock_state (is_today : Bool) (st : Option ClockState) (week_id : Int)
    (time_in time_out : Option Int) (break_minutes : Int) (ts : Int) : Option ClockState :=
  if is_today = true then
    match st with
    | some s =>
      some { s with
              week_id := week_id
              in_time := time_in
              out_time := time_out
              break_minutes := break_minutes
              updated_at := ts }
    | none => none
  else st

-- ====== theorems ======

/-- Claim C1: whenever compute_paid_window returns numeric boundaries (both
real punches present), the returned paid OUT is at least the returned paid
IN; the final safety clamp forces paid OUT up to paid IN otherwise. -/
theorem C1_paid_out_ge_paid_in (oi oo ri ro : Option Int) (authorized : Bool)
    (pin pout : Int)
    (hin : (compute_paid_window oi oo ri ro authorized).paid_in = some pin)
    (hout : (compute_paid_window oi oo ri ro authorized).paid_out = some pout) :
    pin ≤ pout := by
  cases ri with
  | none => simp [compute_paid_window] at hin
  | some rin =>
    cases ro with
    | none => simp [compute_paid_window] at hin
    | some rout0 =>
      simp only [compute_paid_window, Option.some.injEq] at hin hout
      split at hout <;> omega

/-- Witness for C1 at official 09:45-19:00, real 10:00-11:40. -/
theorem C1_paid_out_ge_paid_in_witness :
    (compute_paid_window none none (some 600) (some 700) false).paid_in = some 600 ∧
    (compute_paid_window none none (some 600) (some 700) false).paid_out = some 690 ∧
    (600 : Int) ≤ 690 :=
  ⟨by decide, by decide,
   C1_paid_out_ge_paid_in none none (some 600) (some 700) false 600 690
     (by decide) (by decide)⟩

-- Characterization lemmas for the boundary rules and for
-- compute_paid_window on present punches, shared by the claims below.

lemma in_rule_snap_eq (off_in rin : Int) (auth : Bool)
    (h : ((rin - off_in).natAbs : Int) ≤ TOLERANCE_MIN) :
    in_rule (some off_in) rin auth = ⟨off_in, true, false⟩ := by
  simp only [in_rule]
  rw [if_pos h]

lemma in_rule_cap_eq (off_in rin : Int)
    (h : rin < off_in - TOLERANCE_MIN) :
    in_rule (some off_in) rin false = ⟨off_in, false, true⟩ := by
  simp only [in_rule]
  rw [if_neg (by omega), if_pos (by exact ⟨by trivial, h⟩)]

lemma in_rule_capped_false_of_authorized (oi : Option Int) (rin : Int) :
    (in_rule oi rin true).capped = false := by
  cases oi with
  | none => rfl
  | some off_in =>
    simp only [in_rule]
    split_ifs <;> simp_all

lemma in_rule_value_of_not_snapped_authorized (oi : Option Int) (rin : Int)
    (h : (in_rule oi rin true).snapped = false) :
    (in_rule oi rin true).value = rin := by
  cases oi with
  | none => rfl
  | some off_in =>
    simp only [in_rule] at h ⊢
    split_ifs at h ⊢ <;> simp_all

lemma out_rule_snap_eq (oi : Option Int) (off_out rout : Int) (auth : Bool)
    (h : ((rout - official_out_norm oi off_out).natAbs : Int) ≤ TOLERANCE_MIN) :
    out_rule oi (some off_out) rout auth = ⟨official_out_norm oi off_out, true, false⟩ := by
  simp only [out_rule]
  rw [if_pos h]

lemma out_rule_cap_eq (oi : Option Int) (off_out rout : Int)
    (h : rout > official_out_norm oi off_out + TOLERANCE_MIN) :
    out_rule oi (some off_out) rout false = ⟨official_out_norm oi off_out, false, true⟩ := by
  simp only [out_rule]
  rw [if_neg (by omega), if_pos (by exact ⟨by trivial, h⟩)]

lemma out_rule_capped_false_of_authorized (oi oo : Option Int) (rout : Int) :
    (out_rule oi oo rout true).capped = false := by
  cases oo with
  | none => rfl
  | some off_out =>
    simp only [out_rule]
    split_ifs <;> simp_all

lemma out_rule_value_of_not_snapped_authorized (oi oo : Option Int) (rout : Int)
    (h : (out_rule oi oo rout true).snapped = false) :
    (out_rule oi oo rout true).value = rout := by
  cases oo with
  | none => rfl
  | some off_out =>
    simp only [out_rule] at h ⊢
    split_ifs at h ⊢ <;> simp_all

lemma compute_paid_window_some_eq (oi oo : Option Int) (rin rout0 : Int) (auth : Bool) :
    compute_paid_window oi oo (some rin) (some rout0) auth =
      ⟨some (if (in_rule oi rin auth).snapped then (in_rule oi rin auth).value
             else round_ceil (in_rule oi rin auth).value),
       some (if (if (out_rule oi oo (overnight_out rin rout0) auth).snapped
                 then (out_rule oi oo (overnight_out rin rout0) auth).value
                 else round_floor (out_rule oi oo (overnight_out rin rout0) auth).value) <
                (if (in_rule oi rin auth).snapped then (in_rule oi rin auth).value
                 else round_ceil (in_rule oi rin auth).value)
             then (if (in_rule oi rin auth).snapped then (in_rule oi rin auth).value
                   else round_ceil (in_rule oi rin auth).value)
             else (if (out_rule oi oo (overnight_out rin rout0) auth).snapped
                   then (out_rule oi oo (overnight_out rin rout0) auth).value
                   else round_floor (out_rule oi oo (overnight_out rin rout0) auth).value)),
       (in_rule oi rin auth).snapped,
       (out_rule oi oo (overnight_out rin rout0) auth).snapped,
       (in_rule oi rin auth).capped,
       (out_rule oi oo (overnight_out rin rout0) auth).capped,
       decide ((in_rule oi rin auth).snapped = false ∧
         round_ceil (in_rule oi rin auth).value ≠ (in_rule oi rin auth).value),
       decide ((out_rule oi oo (overnight_out rin rout0) auth).snapped = false ∧
         round_floor (out_rule oi oo (overnight_out rin rout0) auth).value ≠
           (out_rule oi oo (overnight_out rin rout0) auth).value)⟩ := rfl

/-- Claim C2 counterexample: with official 09:00-09:30 and real punches
09:31/09:32, the real OUT is within tolerance of the official OUT and is
snapped (snap_out = true), yet the returned paid OUT is 585 (09:45), not the
official 570 (09:30): the final safety clamp raised the snapped boundary to
the rounded paid IN. -/
theorem C2_snap_cex :
    (compute_paid_window (some 540) (some 570) (some 571) (some 572) false).snap_out = true ∧
    (compute_paid_window (some 540) (some 570) (some 571) (some 572) false).paid_out = some 585 ∧
    (585 : Int) ≠ 570 := by
  refine ⟨by decide, by decide, by decide⟩

/-- Claim C2 (amended): a real punch within 5 minutes of the corresponding
official time (after overnight normalization) is snapped: no cap and no
15-minute rounding is applied to that boundary. A snapped paid IN equals the
official IN exactly; a snapped paid OUT equals the official OUT except that
the final safety clamp may raise it to the paid IN, i.e. it equals
max (paid IN) (official OUT). -/
theorem C2_snap_amended (oi oo : Option Int) (rin rout0 : Int) (authorized : Bool) :
    (∀ off_in, oi = some off_in →
       ((rin - off_in).natAbs : Int) ≤ TOLERANCE_MIN →
       (compute_paid_window oi oo (some rin) (some rout0) authorized).snap_in = true ∧
       (compute_paid_window oi oo (some rin) (some rout0) authorized).cap_in = false ∧
       (compute_paid_window oi oo (some rin) (some rout0) authorized).round_in = false ∧
       (compute_paid_window oi oo (some rin) (some rout0) authorized).paid_in = some off_in) ∧
    (∀ off_out, oo = some off_out →
       ((overnight_out rin rout0 - official_out_norm oi off_out).natAbs : Int) ≤ TOLERANCE_MIN →
       (compute_paid_window oi oo (some rin) (some rout0) authorized).snap_out = true ∧
       (compute_paid_window oi oo (some rin) (some rout0) authorized).cap_out = false ∧
       (compute_paid_window oi oo (some rin) (some rout0) authorized).round_out = false ∧
       ∃ pin,
         (compute_paid_window oi oo (some rin) (some rout0) authorized).paid_in = some pin ∧
         (compute_paid_window oi oo (some rin) (some rout0) authorized).paid_out =
           some (max pin (official_out_norm oi off_out))) := by
  constructor
  · rintro off_in rfl hsnap
    rw [compute_paid_window_some_eq, in_rule_snap_eq off_in rin authorized hsnap]
    simp
  · rintro off_out rfl hsnap
    rw [compute_paid_window_some_eq,
      out_rule_snap_eq oi off_out (overnight_out rin rout0) authorized hsnap]
    refine ⟨by simp, by simp, by simp, ⟨_, rfl, ?_⟩⟩
    simp only [Option.some.injEq, ite_true, ite_false]
    split <;> omega

/-- Witness for C2 (amended) at official 09:45-19:00 with real punches
09:47 and 18:59, both within tolerance. -/
theorem C2_snap_amended_witness :
    ((compute_paid_window (some 585) (some 1140) (some 587) (some 1139) false).snap_in = true ∧
     (compute_paid_window (some 585) (some 1140) (some 587) (some 1139) false).cap_in = false ∧
     (compute_paid_window (some 585) (some 1140) (some 587) (some 1139) false).round_in = false ∧
     (compute_paid_window (some 585) (some 1140) (some 587) (some 1139) false).paid_in =
       some 585) ∧
    ((compute_paid_window (some 585) (some 1140) (some 587) (some 1139) false).snap_out = true ∧
     (compute_paid_window (some 585) (some 1140) (some 587) (some 1139) false).cap_out = false ∧
     (compute_paid_window (some 585) (some 1140) (some 587) (some 1139) false).round_out = false ∧
     ∃ pin,
       (compute_paid_window (some 585) (some 1140) (some 587) (some 1139) false).paid_in =
         some pin ∧
       (compute_paid_window (some 585) (some 1140) (some 587) (some 1139) false).paid_out =
         some (max pin (official_out_norm (some 585) 1140))) :=
  ⟨(C2_snap_amended (some 585) (some 1140) 587 1139 false).1 585 rfl (by decide),
   (C2_snap_amended (some 585) (some 1140) 587 1139 false).2 1140 rfl (by decide)⟩

/-- Claim C3: with both officials present and authorized = false, a real IN
more than 5 minutes before the official IN is capped: cap_in is set and the
boundary becomes the official IN, which then passes through the IN rounding
as a non-snapped boundary, so the returned paid IN is round_ceil of the
official IN. Symmetrically a real OUT more than 5 minutes after the
(overnight-normalized) official OUT is capped to it and rounded down,
subject to the final safety clamp. With authorized = true no cap is ever
applied, and on a non-snapped boundary the real, then rounded, time stands
(the OUT additionally subject to the safety clamp). -/
theorem C3_overtime_cap (off_in off_out rin rout0 : Int) (authorized : Bool) :
    (authorized = false → rin < off_in - TOLERANCE_MIN →
       (compute_paid_window (some off_in) (some off_out) (some rin) (some rout0)
           authorized).cap_in = true ∧
       (compute_paid_window (some off_in) (some off_out) (some rin) (some rout0)
           authorized).paid_in = some (round_ceil off_in)) ∧
    (authorized = false →
       overnight_out rin rout0 > official_out_norm (some off_in) off_out + TOLERANCE_MIN →
       (compute_paid_window (some off_in) (some off_out) (some rin) (some rout0)
           authorized).cap_out = true ∧
       ∃ pin,
         (compute_paid_window (some off_in) (some off_out) (some rin) (some rout0)
             authorized).paid_in = some pin ∧
         (compute_paid_window (some off_in) (some off_out) (some rin) (some rout0)
             authorized).paid_out =
           some (max pin (round_floor (official_out_norm (some off_in) off_out)))) ∧
    (authorized = true →
       (compute_paid_window (some off_in) (some off_out) (some rin) (some rout0)
           authorized).cap_in = false ∧
       (compute_paid_window (some off_in) (some off_out) (some rin) (some rout0)
           authorized).cap_out = false ∧
       ((compute_paid_window (some off_in) (some off_out) (some rin) (some rout0)
           authorized).snap_in = false →
         (compute_paid_window (some off_in) (some off_out) (some rin) (some rout0)
             authorized).paid_in = some (round_ceil rin)) ∧
       ((compute_paid_window (some off_in) (some off_out) (some rin) (some rout0)
           authorized).snap_out = false →
         ∃ pin,
           (compute_paid_window (some off_in) (some off_out) (some rin) (some rout0)
               authorized).paid_in = some pin ∧
           (compute_paid_window (some off_in) (some off_out) (some rin) (some rout0)
               authorized).paid_out =
             some (max pin (round_floor (overnight_out rin rout0))))) := by
  refine ⟨?_, ?_, ?_⟩
  · rintro rfl hearly
    rw [compute_paid_window_some_eq, in_rule_cap_eq off_in rin hearly]
    simp
  · rintro rfl hlate
    rw [compute_paid_window_some_eq,
      out_rule_cap_eq (some off_in) off_out (overnight_out rin rout0) hlate]
    refine ⟨by simp, ⟨_, rfl, ?_⟩⟩
    simp only [Option.some.injEq, ite_true, ite_false, Bool.false_eq_true, if_false]
    split_ifs <;> omega
  · rintro rfl
    refine ⟨?_, ?_, ?_, ?_⟩
    · rw [compute_paid_window_some_eq]
      exact in_rule_capped_false_of_authorized (some off_in) rin
    · rw [compute_paid_window_some_eq]
      exact out_rule_capped_false_of_authorized (some off_in) (some off_out)
        (overnight_out rin rout0)
    · intro hsi
      simp only [compute_paid_window_some_eq] at hsi ⊢
      have hv := in_rule_value_of_not_snapped_authorized (some off_in) rin hsi
      rw [hsi, hv]
      simp
    · intro hso
      simp only [compute_paid_window_some_eq] at hso ⊢
      have hv := out_rule_value_of_not_snapped_authorized (some off_in) (some off_out)
        (overnight_out rin rout0) hso
      refine ⟨_, rfl, ?_⟩
      rw [hso, hv]
      simp only [Option.some.injEq, ite_true, ite_false, Bool.false_eq_true, if_false]
      split_ifs <;> omega

/-- Witness for C3: unauthorized early IN and late OUT against official
10:00-19:00 (parts one and two), and the same punches authorized
(part three). -/
theorem C3_overtime_cap_witness :
    ((compute_paid_window (some 600) (some 1140) (some 570) (some 1150) false).cap_in = true ∧
     (compute_paid_window (some 600) (some 1140) (some 570) (some 1150) false).paid_in =
       some (round_ceil 600)) ∧
    ((compute_paid_window (some 600) (some 1140) (some 570) (some 1150) false).cap_out = true ∧
     ∃ pin,
       (compute_paid_window (some 600) (some 1140) (some 570) (some 1150) false).paid_in =
         some pin ∧
       (compute_paid_window (some 600) (some 1140) (some 570) (some 1150) false).paid_out =
         some (max pin (round_floor (official_out_norm (some 600) 1140)))) ∧
    ((compute_paid_window (some 600) (some 1140) (some 570) (some 1150) true).cap_in = false ∧
     (compute_paid_window (some 600) (some 1140) (some 570) (some 1150) true).cap_out = false) :=
  ⟨(C3_overtime_cap 600 1140 570 1150 false).1 rfl (by decide),
   (C3_overtime_cap 600 1140 570 1150 false).2.1 rfl (by decide),
   ⟨((C3_overtime_cap 600 1140 570 1150 true).2.2 rfl).1,
    ((C3_overtime_cap 600 1140 570 1150 true).2.2 rfl).2.1⟩⟩

/-- Claim C4: the effective break is max(60, recorded break) when both
punches are present and 0 when either is missing, and the payable-minutes
step of minutes_paid_between equals max(0, (paid OUT - paid IN) - effective
break) for every paid window and recorded break. -/
theorem C4_break_and_payable (a b break_real pin pout : Int) (t_in t_out : Option Int) :
    effective_break_minutes (some a) (some b) break_real = max BREAK_FIXED_MIN break_real ∧
    effective_break_minutes none t_out break_real = 0 ∧
    effective_break_minutes t_in none break_real = 0 ∧
    payable_minutes pin pout (effective_break_minutes t_in t_out break_real) =
      max 0 (pout - pin - effective_break_minutes t_in t_out break_real) := by
  refine ⟨rfl, rfl, ?_, ?_⟩
  · cases t_in <;> rfl
  · cases t_in <;> cases t_out <;>
      simp only [effective_break_minutes, payable_minutes, BREAK_FIXED_MIN] <;> omega

/-- Claim C5: multiplier_for_date returns the public-holiday premium
whenever the bank-holiday row for the user and date exists and is marked
paid, regardless of the weekday; otherwise 1.5 when the parsed date is a
Sunday (weekday 6) and 1.0 in every remaining case. -/
theorem C5_multiplier_priority (wk : Except Unit Nat) (row : Option (Option Int)) (d : Nat) :
    multiplier_for_date (Except.ok (some (some 1))) wk = PUBLIC_HOLIDAY_MULT ∧
    ((row = none ∨ ∃ p, row = some p ∧ p.getD 0 ≠ 1) →
       multiplier_for_date (Except.ok row) (Except.ok 6) = 3 / 2) ∧
    ((row = none ∨ ∃ p, row = some p ∧ p.getD 0 ≠ 1) → d ≠ 6 →
       multiplier_for_date (Except.ok row) (Except.ok d) = 1) := by
  refine ⟨rfl, ?_, ?_⟩
  · rintro (rfl | ⟨p, rfl, hp⟩)
    · rfl
    · simp [multiplier_for_date, hp]
  · rintro (rfl | ⟨p, rfl, hp⟩) hd
    · simp [multiplier_for_date, hd]
    · simp [multiplier_for_date, hp, hd]

/-- Witness for C5: a paid bank holiday on a Wednesday yields the premium,
no row on a Sunday yields 1.5, and no row on a Wednesday yields 1.0. -/
theorem C5_multiplier_priority_witness :
    multiplier_for_date (Except.ok (some (some 1))) (Except.ok 2) = PUBLIC_HOLIDAY_MULT ∧
    multiplier_for_date (Except.ok none) (Except.ok 6) = 3 / 2 ∧
    multiplier_for_date (Except.ok none) (Except.ok 2) = 1 :=
  ⟨(C5_multiplier_priority (Except.ok 2) none 2).1,
   (C5_multiplier_priority (Except.ok 2) none 2).2.1 (Or.inl rfl),
   (C5_multiplier_priority (Except.ok 2) none 2).2.2 (Or.inl rfl) (by decide)⟩

/-- Claim C10: multiplier_for_date is a total function of its injected
inputs, and on every path where the source raises (the bank-holiday query
fails, or the lookup misses and the date string fails to parse) the blanket
try/except makes it return the base multiplier 1.0 instead of propagating. -/
theorem C10_exception_swallowed (wk : Except Unit Nat) (p : Option Int) :
    multiplier_for_date (Except.error ()) wk = 1 ∧
    multiplier_for_date (Except.ok none) (Except.error ()) = 1 ∧
    (p.getD 0 ≠ 1 → multiplier_for_date (Except.ok (some p)) (Except.error ()) = 1) := by
  refine ⟨rfl, rfl, ?_⟩
  intro hp
  simp [multiplier_for_date, hp]

/-- Witness for C10: a failed query yields 1.0, and an unpaid row with a
malformed date yields 1.0. -/
theorem C10_exception_swallowed_witness :
    multiplier_for_date (Except.error ()) (Except.ok 6) = 1 ∧
    multiplier_for_date (Except.ok none) (Except.error ()) = 1 ∧
    multiplier_for_date (Except.ok (some (some 0))) (Except.error ()) = 1 :=
  ⟨(C10_exception_swallowed (Except.ok 6) (some 0)).1,
   (C10_exception_swallowed (Except.ok 6) (some 0)).2.1,
   (C10_exception_swallowed (Except.ok 6) (some 0)).2.2 (by decide)⟩

/-- Claim C6 counterexample: on a day-off roster day (day_off = 1) with real
punches 09:50-19:03, minutes_paid_between substitutes the detected shift A
and snaps: snap_in is set, the paid IN is the official 585 (09:45) rather
than the rounded real 600 (10:00), and the payable minutes are 495, not the
480 that rounding alone would give. -/
theorem C6_dayoff_cex :
    (minutes_paid_between (some ⟨none, none, 1⟩) (some 590) (some 1143) 0 false).2.snap_in =
      true ∧
    (minutes_paid_between (some ⟨none, none, 1⟩) (some 590) (some 1143) 0 false).2.paid_in =
      some 585 ∧
    round_ceil 590 = 600 ∧
    (585 : Int) ≠ 600 ∧
    (minutes_paid_between (some ⟨none, none, 1⟩) (some 590) (some 1143) 0 false).1 = 495 ∧
    (495 : Int) ≠
      payable_minutes (round_ceil 590) (round_floor 1143)
        (effective_break_minutes (some 590) (some 1143) 0) := by
  refine ⟨by decide, by decide, by decide, by decide, by decide, by decide⟩

/-- Claim C6 (amended): on a date with no official shift (day-off roster day
or no roster row), minutes_paid_between does not leave the punches alone; it
substitutes the detected shift (A if the real IN is at or before 10:15, else
B) and runs the full snap/cap/round pipeline against it. Only
compute_paid_window itself, when given no official boundaries, applies
rounding (and the final safety clamp) as the only adjustment, with no snap
and no cap. -/
theorem C6_dayoff_amended (ro : Option RosterDay) (rin rout0 break_real : Int)
    (authorized : Bool)
    (h : ro = none ∨ ∃ r, ro = some r ∧ r.day_off ≠ 0) :
    (∀ a b, detect_shift (some rin) = some (a, b) →
       ∃ pin pout,
         (compute_paid_window (some a) (some b) (some rin) (some rout0)
             authorized).paid_in = some pin ∧
         (compute_paid_window (some a) (some b) (some rin) (some rout0)
             authorized).paid_out = some pout ∧
         minutes_paid_between ro (some rin) (some rout0) break_real authorized =
           (payable_minutes pin pout (effective_break_minutes (some rin) (some rout0) break_real),
            compute_paid_window (some a) (some b) (some rin) (some rout0) authorized)) ∧
    ((compute_paid_window none none (some rin) (some rout0) authorized).snap_in = false ∧
     (compute_paid_window none none (some rin) (some rout0) authorized).cap_in = false ∧
     (compute_paid_window none none (some rin) (some rout0) authorized).snap_out = false ∧
     (compute_paid_window none none (some rin) (some rout0) authorized).cap_out = false ∧
     (compute_paid_window none none (some rin) (some rout0) authorized).paid_in =
       some (round_ceil rin) ∧
     (compute_paid_window none none (some rin) (some rout0) authorized).paid_out =
       some (max (round_ceil rin) (round_floor (overnight_out rin rout0)))) := by
  constructor
  · intro a b hdet
    rcases h with rfl | ⟨r, rfl, hr⟩
    · simp only [minutes_paid_between, hdet, compute_paid_window_some_eq]
      exact ⟨_, _, rfl, rfl, rfl⟩
    · simp only [minutes_paid_between, hr, hdet, compute_paid_window_some_eq, ite_false,
        if_false]
      exact ⟨_, _, rfl, rfl, rfl⟩
  · refine ⟨rfl, rfl, rfl, rfl, rfl, ?_⟩
    rw [compute_paid_window_some_eq]
    simp only [Option.some.injEq]
    simp only [in_rule, out_rule]
    split_ifs <;> first | contradiction | omega

/-- Witness for C6 (amended): a missing roster row with real punches
09:50-19:03 resolves to detected shift A and the full pipeline against it. -/
theorem C6_dayoff_amended_witness :
    (∀ a b, detect_shift (some 590) = some (a, b) →
       ∃ pin pout,
         (compute_paid_window (some a) (some b) (some 590) (some 1143) false).paid_in =
           some pin ∧
         (compute_paid_window (some a) (some b) (some 590) (some 1143) false).paid_out =
           some pout ∧
         minutes_paid_between none (some 590) (some 1143) 0 false =
           (payable_minutes pin pout (effective_break_minutes (some 590) (some 1143) 0),
            compute_paid_window (some a) (some b) (some 590) (some 1143) false)) ∧
    ((compute_paid_window none none (some 590) (some 1143) false).snap_in = false ∧
     (compute_paid_window none none (some 590) (some 1143) false).cap_in = false ∧
     (compute_paid_window none none (some 590) (some 1143) false).snap_out = false ∧
     (compute_paid_window none none (some 590) (some 1143) false).cap_out = false ∧
     (compute_paid_window none none (some 590) (some 1143) false).paid_in =
       some (round_ceil 590) ∧
     (compute_paid_window none none (some 590) (some 1143) false).paid_out =
       some (max (round_ceil 590) (round_floor (overnight_out 590 1143)))) :=
  C6_dayoff_amended none 590 1143 0 false (Or.inl rfl)

/-- Claim C7 counterexample: on a rostered working day (official IN 09:45)
with extra_checked = 0 and a real punch at 10:00, fifteen minutes late and
so beyond the 5-minute tolerance, clock_in does not return a
pending-confirmation response: it commits the real time 600 into the entry.
Only an early deviation triggers the confirmation protocol. -/
theorem C7_deviation_cex :
    (clock_in (some ⟨some 585, some 1140, 0⟩) ⟨none, none, 0, 1, 0, 0⟩ none 1 0 600 1 0).1 =
      ClockInResult.committed ∧
    (clock_in (some ⟨some 585, some 1140, 0⟩) ⟨none, none, 0, 1, 0, 0⟩ none 1 0 600 1 0).2.1.time_in =
      some 600 ∧
    ((600 : Int) - 585).natAbs > 5 := by
  refine ⟨by decide, by decide, by decide⟩

/-- Claim C7 (amended): on a rostered working day with extra_checked = 0 and
extra_authorized = 0, a real clock-in more than 5 minutes EARLIER than the
official IN makes clock_in return the EARLY_IN pending-confirmation response
and leave the entry and clock state untouched; a late deviation beyond
tolerance does not trigger confirmation and commits the real time. -/
theorem C7_deviation_amended (r : RosterDay) (e : Entry) (st : Option ClockState)
    (week_id work_date real_now : Int) (mult : Rat) (ts : Int) (off_in : Int)
    (h1 : r.shift_in = some off_in) (h2 : r.day_off = 0)
    (h3 : e.extra_checked = 0) (h4 : e.extra_authorized = 0)
    (h5 : real_now < off_in - TOLERANCE_MIN) :
    clock_in (some r) e st week_id work_date real_now mult ts =
      (ClockInResult.needs_extra_confirm "EARLY_IN" (some off_in) real_now, e, st) := by
  have hdc : decide_clock_time ClockKind.IN real_now (some off_in)
      (decide ((0 : Int) = 1)) = (off_in, true) := by
    simp only [decide_clock_time]
    rw [if_neg (by omega), if_neg (by decide), if_pos (by omega)]
  simp only [clock_in, h1, h2, h3, h4]
  rw [if_neg (by simp), if_neg (by simp), hdc]
  simp

/-- Witness for C7 (amended): official IN 09:45, real punch 09:30, fifteen
minutes early, unchecked and unauthorized: the pending response is returned
and nothing is committed. -/
theorem C7_deviation_amended_witness :
    clock_in (some ⟨some 585, some 1140, 0⟩) ⟨none, none, 0, 1, 0, 0⟩ none 1 0 570 1 0 =
      (ClockInResult.needs_extra_confirm "EARLY_IN" (some 585) 570,
       ⟨none, none, 0, 1, 0, 0⟩, none) :=
  C7_deviation_amended ⟨some 585, some 1140, 0⟩ ⟨none, none, 0, 1, 0, 0⟩ none 1 0 570 1 0 585
    rfl rfl rfl rfl (by decide)

/-- Claim C8: when an external upsert edits the entry for today and a clock
state row exists, the resynchronization sets the mirrored in_time, out_time
and break_minutes to the new entry values while leaving break_running and
break_start exactly as they were. -/
theorem C8_sync_preserves_live_break (s : ClockState) (week_id : Int)
    (t_in t_out : Option Int) (bm ts : Int) :
    ∃ s2, upsert_sync_clock_state true (some s) week_id t_in t_out bm ts = some s2 ∧
      s2.in_time = t_in ∧ s2.out_time = t_out ∧ s2.break_minutes = bm ∧
      s2.break_running = s.break_running ∧ s2.break_start = s.break_start :=
  ⟨_, rfl, rfl, rfl, rfl, rfl, rfl⟩

/-- Claim C9 counterexample: min_to_hhmm does not clamp a negative input to
zero: min_to_hhmm (-5) renders the Python floor division -5 // 60 = -1 and
-5 % 60 = 55 as "-1:55", not "00:00". -/
theorem C9_negative_cex :
    min_to_hhmm (-5) = "-1:55" ∧ min_to_hhmm (-5) ≠ "00:00" := by
  refine ⟨by decide, by decide⟩

/-- Claim C9 (amended): a negative input is not clamped; the hour field is
the (negative) floor quotient and the minute field the nonnegative
remainder, so every m with -60 ≤ m < 0 renders as "-1:" followed by the
two-digit rendering of m + 60. -/
theorem C9_negative_amended (m : Int) (hlo : -60 ≤ m) (hhi : m < 0) :
    min_to_hhmm m = "-1:" ++ fmt02 (m + 60) := by
  unfold min_to_hhmm
  rw [show m / 60 = -1 by omega, show m % 60 = m + 60 by omega]
  rfl

/-- Witness for C9 (amended) at m = -5. -/
theorem C9_negative_amended_witness :
    min_to_hhmm (-5) = "-1:" ++ fmt02 (-5 + 60) :=
  C9_negative_amended (-5) (by decide) (by decide)
